import Mathlib

/-!
Verification of the client-side document/session state model of the Tia
chat frontend.  Each definition is a shallow embedding of a function of the
repository (file and symbol named in its doc comment); theorems settle the
frozen claims about the specification.
-/

namespace Tia

/-- Browser `File` object, restricted to the fields the client reads:
`name`, the declared MIME type `type`, and `size` in bytes. -/
structure File where
  name : String
  type : String
  size : Nat
deriving Repr, DecidableEq

/-- The MIME-type allow-list of `validateFileType`
(`use-component-props.ts`, lines 497-509). -/
def allowedTypes : List String :=
  [ "application/pdf",
    "application/msword",
    "application/vnd.openxmlformats-officedocument.wordprocessingml.document",
    "application/vnd.ms-excel",
    "application/vnd.openxmlformats-officedocument.spreadsheetml.sheet",
    "application/vnd.ms-powerpoint",
    "application/vnd.openxmlformats-officedocument.presentationml.presentation",
    "image/jpeg",
    "image/png",
    "image/gif",
    "text/plain" ]

/-- Function `validateFileType` (`use-component-props.ts`, lines 496-512):
`allowedTypes.includes(file.type) || file.size < 50 * 1024 * 1024`.
A pure predicate: it reads only `file.type` and `file.size`. -/
def validateFileType (file : File) : Bool :=
  allowedTypes.contains file.type || decide (file.size < 50 * 1024 * 1024)

/-- A document of the local store (`Document` interface of
`use-optimized-tia-app`, as populated by the upload flow in the hook of
`part_004` and the initial data of `use-component-props.ts`).  Fields the
source leaves `undefined` in the initial data take the JS-falsy defaults
`false` / `none`. -/
structure Document where
  id : String
  name : String
  type : String
  size : String
  pages : Nat
  createdDate : String
  addedDate : String
  content : String
  fileType : String
  isProcessed : Bool := false
  processingStatus : Option String := none
deriving Repr, DecidableEq

/-- A collection ("database") of the local store (`Database` interface).
`documentCount` is a JS number that the code may decrement below zero, so
it is modelled as `Int`. -/
structure Database where
  id : String
  name : String
  size : String
  documentCount : Int
  createdDate : String
  lastModified : String
  documents : List Document
deriving Repr, DecidableEq

/-- Function `createNewDatabase` (`part_001`, lines 3-11).  The source derives the
id from `Date.now()` and the dates from the current day; both are passed
in here. -/
def createNewDatabase (now : Nat) (today : String) (name : String) : Database :=
  { id := toString now, name := name, size := "0 MB", documentCount := 0,
    createdDate := today, lastModified := today, documents := [] }

/-- Function `updateDatabaseDocuments` (`part_001`, lines 13-28): rewrite the
matching database with the updated document list and re-derive
`documentCount` from its length. -/
def updateDatabaseDocuments (databases : List Database) (dbId : String)
    (updater : List Document → List Document) (today : String) : List Database :=
  databases.map fun db =>
    if db.id = dbId then
      { db with documents := updater db.documents,
                documentCount := ((updater db.documents).length : Int),
                lastModified := today }
    else db

/-- The on-success merge of `handleFileUpload` (`part_004`, lines 82-93):
in the target database, drop any document with the new document's display
name and append the new document; `documentCount` becomes the filtered
length plus one. -/
def handleFileUploadMerge (databases : List Database) (targetDbId : String)
    (newDoc : Document) : List Database :=
  databases.map fun db =>
    if db.id = targetDbId then
      { db with
          documents := db.documents.filter (fun doc => doc.name ≠ newDoc.name) ++ [newDoc],
          documentCount :=
            ((db.documents.filter (fun doc => doc.name ≠ newDoc.name)).length : Int) + 1 }
    else db

/-- The on-success local update of `deleteDocument` (`part_008`,
lines 147-158): drop the document with the given id from the matching
database and decrement `documentCount`, clamped at zero. -/
def deleteDocumentLocal (databases : List Database) (dbId docId today : String) :
    List Database :=
  databases.map fun db =>
    if db.id = dbId then
      { db with documents := db.documents.filter (fun doc => doc.id ≠ docId),
                documentCount := max 0 (db.documentCount - 1),
                lastModified := today }
    else db

/-- Function `renameDocument` (`part_008`, lines 212-230): rename one document of
the matching database in place. -/
def renameDocument (databases : List Database) (dbId docId newName today : String) :
    List Database :=
  databases.map fun db =>
    if db.id = dbId then
      { db with
          documents := db.documents.map
            (fun doc => if doc.id = docId then { doc with name := newName } else doc),
          lastModified := today }
    else db

/-- The initial databases state of `useOptimizedTiaApp`
(`use-component-props.ts`, lines 577-646), verbatim. -/
def initialDatabases : List Database :=
  [ { id := "1", name := "Company Policies", size := "25.4 MB",
      documentCount := 12, createdDate := "2024-01-15",
      lastModified := "2024-01-20",
      documents :=
        [ { id := "doc1", name := "Employee Handbook.pdf", type := "PDF",
            size := "2.1 MB", pages := 45, createdDate := "2024-01-10",
            addedDate := "2024-01-15",
            content := "This comprehensive employee handbook outlines company policies, procedures, and guidelines for all staff members. It covers workplace conduct, benefits, time-off policies, and professional development opportunities. Section 1: Introduction to Company Culture. Our company values integrity, innovation, and collaboration. We believe in creating an inclusive environment where every employee can thrive. Section 2: Code of Conduct. All employees are expected to maintain professional behavior at all times. This includes respectful communication, punctuality, and adherence to company policies.",
            fileType := "PDF" },
          { id := "doc2", name := "Security Guidelines.docx", type := "Word",
            size := "1.8 MB", pages := 32, createdDate := "2024-01-12",
            addedDate := "2024-01-16",
            content := "Security guidelines and protocols for maintaining information security and data protection within the organization. This document covers password policies, data handling procedures, and incident response protocols. Password Requirements: Minimum 12 characters, mix of uppercase, lowercase, numbers, and special characters. Two-factor authentication is mandatory for all accounts.",
            fileType := "Word" } ] },
    { id := "2", name := "Technical Documentation", size := "45.2 MB",
      documentCount := 28, createdDate := "2024-01-10",
      lastModified := "2024-01-22",
      documents :=
        [ { id := "doc3", name := "API Documentation.pdf", type := "PDF",
            size := "3.2 MB", pages := 78, createdDate := "2024-01-08",
            addedDate := "2024-01-11",
            content := "Complete API documentation including endpoints, authentication methods, request/response formats, and integration examples for developers. REST API Endpoints: GET /api/users - Retrieve user list. POST /api/users - Create new user. PUT /api/users/\x7bid\x7d - Update user. DELETE /api/users/\x7bid\x7d - Delete user. Authentication: Bearer token required in Authorization header.",
            fileType := "PDF" },
          { id := "doc4", name := "Project Timeline.xlsx", type := "Excel",
            size := "1.5 MB", pages := 12, createdDate := "2024-01-20",
            addedDate := "2024-01-20",
            content := "Project timeline and milestone tracking spreadsheet. Contains task assignments, deadlines, progress tracking, and resource allocation for the Q1 2024 development cycle.",
            fileType := "Excel" } ] } ]

/-- A sample document used by concrete witnesses. -/
def sampleDoc : Document :=
  { id := "doc1", name := "a.pdf", type := "PDF", size := "1 MB", pages := 3,
    createdDate := "2024-02-01", addedDate := "2024-02-01", content := "text",
    fileType := "PDF" }

/-- A sample database used by concrete witnesses. -/
def sampleDb : Database :=
  { id := "1", name := "Policies", size := "1 MB", documentCount := 1,
    createdDate := "2024-02-01", lastModified := "2024-02-01",
    documents := [sampleDoc] }

/-- State of `sampleDb` after all of its documents are removed, as produced both by
`updateDatabaseDocuments` with the emptying updater and by
`deleteDocumentLocal` at its only document. -/
def sampleDbEmptied (today : String) : Database :=
  { sampleDb with documents := [], documentCount := 0, lastModified := today }

/-- The second, fresher upload of `a.pdf` used by the C7 witness. -/
def sampleDocFresh : Document :=
  { sampleDoc with size := "2 MB", content := "fresh" }

/-- State of `sampleDb` after `a.pdf` has been re-uploaded: exactly one document of
that name, with the fresher metadata. -/
def sampleDbReuploaded : Database :=
  { sampleDb with documents := [sampleDocFresh], documentCount := 1 }

/-- A toast notification as raised through `useToast`; `destructive`
records `variant: "destructive"`. -/
structure Toast where
  title : String
  description : String
  destructive : Bool := false
deriving Repr, DecidableEq

/-- JS truthy-or on strings: `a || b` is `b` when `a` is the empty string
(falsy), else `a`. -/
def jsOr (a b : String) : String := if a = "" then b else a

/-- Whether a character list starts with the given pattern. -/
def charsStartWith : List Char → List Char → Bool
  | _, [] => true
  | [], _ :: _ => false
  | c :: cs, d :: ds => c == d && charsStartWith cs ds

/-- Whether a character list contains the given pattern as a contiguous
run. -/
def charsContain : List Char → List Char → Bool
  | [], pat => charsStartWith [] pat
  | c :: cs, pat => charsStartWith (c :: cs) pat || charsContain cs pat

/-- JS `String.prototype.includes`: substring containment. -/
def jsStringIncludes (s sub : String) : Bool :=
  charsContain s.data sub.data

/-- One entry of the delete endpoint's per-file status list
(`ApiFileDeleteStatus`, `services/api.ts`). -/
structure ApiFileDeleteStatus where
  filename : String
  status : String
  message : Option String := none
deriving Repr, DecidableEq

/-- The delete endpoint's response (`ApiDeleteResponseData`,
`services/api.ts`). -/
structure ApiDeleteResponseData where
  user_id : String
  overall_message : String
  files_status : List ApiFileDeleteStatus
deriving Repr, DecidableEq

/-- The success test of `deleteDocument` (`part_008`, line 146):
`response.files_status.length > 0 &&
response.files_status[0].status.includes("successfully")`. -/
def deleteReportedSuccess (response : ApiDeleteResponseData) : Bool :=
  match response.files_status with
  | [] => false
  | first :: _ => jsStringIncludes first.status "successfully"

/-- The per-file status message of `deleteDocument` (`part_008`,
line 165): the first entry's message, or the fixed text when the list is
empty; a missing message is JS-falsy and modelled as the empty string. -/
def deleteStatusMsg (response : ApiDeleteResponseData) : String :=
  match response.files_status with
  | [] => "Unknown status from backend."
  | first :: _ => first.message.getD ""

/-- The database a successful delete produces for the matching entry:
the branch body of `deleteDocumentLocal`. -/
def deleteDocumentUpdatedDb (db : Database) (docId today : String) : Database :=
  { db with documents := db.documents.filter (fun doc => doc.id ≠ docId),
            documentCount := max 0 (db.documentCount - 1),
            lastModified := today }

/-- Result of the deletion coordinator: the databases state passed to
`onDatabaseAction` and the toasts raised. -/
structure DeleteDocumentOutcome where
  databases : List Database
  toasts : List Toast
deriving Repr, DecidableEq

/-- Function `deleteDocument` (`part_008`, lines 130-181).  `confirmed` is the
result of the browser `confirm` dialog; `backend` is the outcome of the
`deleteDocuments` service call (`Except.error` carries the thrown error's
message).  The not-successful branch throws
`overall_message || statusMsg` and the shared catch block surfaces
`error.message || "Could not delete <docName>."` as a destructive toast,
collapsed here into the direct toast value. -/
def deleteDocument (databases : List Database) (dbId docId docName today : String)
    (confirmed : Bool) (backend : Except String ApiDeleteResponseData) :
    DeleteDocumentOutcome :=
  if confirmed = false then { databases := databases, toasts := [] }
  else
    match backend with
    | Except.error e =>
        { databases := databases,
          toasts := [{ title := "Error Deleting Document",
                       description := jsOr e ("Could not delete " ++ docName ++ "."),
                       destructive := true }] }
    | Except.ok response =>
        if deleteReportedSuccess response then
          { databases := deleteDocumentLocal databases dbId docId today,
            toasts := [{ title := "Document Deleted",
                         description := jsOr (deleteStatusMsg response)
                           (docName ++ " has been successfully deleted.") }] }
        else
          { databases := databases,
            toasts := [{ title := "Error Deleting Document",
                         description := jsOr
                           (jsOr response.overall_message (deleteStatusMsg response))
                           ("Could not delete " ++ docName ++ "."),
                         destructive := true }] }

/-- The backend delete response used by the C6 witness: the single file is
reported deleted successfully. -/
def sampleDeleteResponseOk : ApiDeleteResponseData :=
  { user_id := "u", overall_message := "ok",
    files_status := [{ filename := "a.pdf", status := "File deleted successfully" }] }

/-- The backend delete response used by the C6 witness for the failure
path: the file is reported missing. -/
def sampleDeleteResponseFail : ApiDeleteResponseData :=
  { user_id := "u", overall_message := "deletion failed",
    files_status := [{ filename := "a.pdf", status := "File not found",
                       message := some "no such file" }] }

/-- JS `String.prototype.trim`: strip whitespace from both ends. -/
def jsTrim (s : String) : String :=
  ⟨((s.data.dropWhile Char.isWhitespace).reverse.dropWhile Char.isWhitespace).reverse⟩

/-- One source citation of the query endpoint
(`ApiSourceDocumentData`, `services/api.ts`). -/
structure ApiSourceDocumentData where
  filename : String
  page : Option Nat := none
  content_type : Option String := none
  section_title : Option String := none
  table_page : Option Nat := none
  preview : Option String := none
deriving Repr, DecidableEq

/-- The query endpoint's response (`ApiQueryResponseData`,
`services/api.ts`). -/
structure ApiQueryResponseData where
  question : String
  answer : String
  sources : List ApiSourceDocumentData
  user_id : String
deriving Repr, DecidableEq

/-- The author role of a chat message (`"user" | "bot"`). -/
inductive ChatMessageType where
  | user
  | bot
deriving Repr, DecidableEq

/-- A chat message as built by `handleSendMessage` in `part_009`:
assistant messages store the backend's source objects in
`documentReferences`; user and error messages leave it absent. -/
structure ChatMessage where
  id : String
  type : ChatMessageType
  content : String
  timestamp : String
  documentReferences : Option (List ApiSourceDocumentData) := none
deriving Repr, DecidableEq

/-- A saved chat session (`SavedChat` interface). -/
structure SavedChat where
  id : String
  name : String
  messages : List ChatMessage
  createdDate : String
deriving Repr, DecidableEq

/-- The chat state container (`chatState` of `part_009`). -/
structure ChatState where
  messages : List ChatMessage
  currentMessage : String
  currentChatId : String
deriving Repr, DecidableEq

/-- The saved-chats update both optimistic branches of `handleSendMessage`
perform: append the message to the chat whose id is the active one. -/
def appendToCurrentChat (currentChatId : String) (message : ChatMessage)
    (savedChats : List SavedChat) : List SavedChat :=
  savedChats.map fun chat =>
    if chat.id = currentChatId then
      { chat with messages := chat.messages ++ [message] }
    else chat

/-- Result of one chat submission: the chat state and saved chats after
all `onChatAction` / `onSavedChatsAction` updates, the toasts raised, and
whether a backend query was issued. -/
structure SendMessageOutcome where
  chat : ChatState
  savedChats : List SavedChat
  toasts : List Toast
  queried : Bool
deriving Repr, DecidableEq

/-- Function `handleSendMessage` (`part_009`, lines 140-237).  `now` stands for
`Date.now()` (message ids are `now` and `now + 1`), `timestamp` for the
ISO timestamps, and `backend` for the outcome of `queryDocuments`
(`Except.error` carries the thrown error's message).  The empty-question
guard returns before anything is appended; the user message is appended
optimistically to the log and the active saved chat BEFORE the identity
check, which returns with an authentication toast and no query.  In the
source's success branch the declared `botResponseMessage` is appended
under the undeclared name `botMessage` (a slip); this embedding appends
the declared `botResponseMessage`, i.e. the evident intent. -/
def handleSendMessage (now : Nat) (timestamp : String) (chatState : ChatState)
    (savedChats : List SavedChat) (currentUserId : Option String)
    (backend : Except String ApiQueryResponseData) : SendMessageOutcome :=
  let currentMessageContent := jsTrim chatState.currentMessage
  if currentMessageContent = "" then
    { chat := chatState, savedChats := savedChats, toasts := [], queried := false }
  else
    let userMessage : ChatMessage :=
      { id := toString now, type := ChatMessageType.user,
        content := currentMessageContent, timestamp := timestamp }
    let chatAfterUser : ChatState :=
      { chatState with messages := chatState.messages ++ [userMessage],
                       currentMessage := "" }
    let savedAfterUser :=
      appendToCurrentChat chatState.currentChatId userMessage savedChats
    match currentUserId with
    | none =>
        { chat := chatAfterUser, savedChats := savedAfterUser,
          toasts := [{ title := "Authentication Error",
                       description := "User ID is not available. Cannot send message.",
                       destructive := true }],
          queried := false }
    | some _ =>
        match backend with
        | Except.ok backendResponse =>
            let botResponseMessage : ChatMessage :=
              { id := toString (now + 1), type := ChatMessageType.bot,
                content := backendResponse.answer, timestamp := timestamp,
                documentReferences := some backendResponse.sources }
            { chat := { chatAfterUser with
                          messages := chatAfterUser.messages ++ [botResponseMessage] },
              savedChats := appendToCurrentChat chatState.currentChatId
                botResponseMessage savedAfterUser,
              toasts := [], queried := true }
        | Except.error e =>
            let errorMessage : ChatMessage :=
              { id := toString (now + 1), type := ChatMessageType.bot,
                content := "Sorry, I encountered an error trying to respond.",
                timestamp := timestamp }
            { chat := { chatAfterUser with
                          messages := chatAfterUser.messages ++ [errorMessage] },
              savedChats := savedAfterUser,
              toasts := [{ title := "Error",
                           description := jsOr e "Failed to get response from bot.",
                           destructive := true }],
              queried := true }

/-- The optimistic user message of a submission. -/
def mkUserMessage (now : Nat) (timestamp content : String) : ChatMessage :=
  { id := toString now, type := ChatMessageType.user, content := content,
    timestamp := timestamp }

/-- The assistant reply message the success branch of `handleSendMessage`
declares (`botResponseMessage`): content is the backend's answer and
`documentReferences` are exactly the backend's sources. -/
def mkBotResponseMessage (now : Nat) (timestamp : String)
    (backendResponse : ApiQueryResponseData) : ChatMessage :=
  { id := toString (now + 1), type := ChatMessageType.bot,
    content := backendResponse.answer, timestamp := timestamp,
    documentReferences := some backendResponse.sources }

/-- The fixed-text assistant error message of the failure branch. -/
def mkChatErrorMessage (now : Nat) (timestamp : String) : ChatMessage :=
  { id := toString (now + 1), type := ChatMessageType.bot,
    content := "Sorry, I encountered an error trying to respond.",
    timestamp := timestamp }

/-- The chat state used by the chat witnesses: an empty log with the
question `hello` pending in the input buffer. -/
def sampleChatState : ChatState :=
  { messages := [], currentMessage := "hello", currentChatId := "1" }

/-- The saved chat used by the chat witnesses; it is the active one. -/
def sampleSavedChat : SavedChat :=
  { id := "1", name := "Chat", messages := [], createdDate := "2024-02-01" }

/-- The backend reply used by the chat witnesses. -/
def sampleQueryResponse : ApiQueryResponseData :=
  { question := "hello", answer := "42",
    sources := [{ filename := "a.pdf", page := some 3 }], user_id := "u" }

/-- A user record as returned by the auth endpoints (`UserResponse`,
`services/api.ts`). -/
structure UserResponse where
  username : String
  full_name : Option String := none
  id : String
  role : String
deriving Repr, DecidableEq

/-- The in-memory auth state of `AuthProvider` (`part_006`). -/
structure AuthState where
  currentUser : Option UserResponse
  isAuthenticated : Bool
  isLoading : Bool
  error : Option String
deriving Repr, DecidableEq

/-- Result of the localStorage rehydration effect: the auth state and the
`currentUser` record of durable local storage afterwards. -/
structure AuthInitResult where
  state : AuthState
  storedUser : Option String
deriving Repr, DecidableEq

/-- The localStorage rehydration effect of `AuthProvider` (`part_006`,
lines 24-38).  `parse` stands for `JSON.parse` into a `UserResponse`;
`parse s = none` models a parse exception, which the effect catches,
removing the corrupted record.  The function is total: no exception
propagates upward. -/
def rehydrateSession (parse : String → Option UserResponse)
    (storedUser : Option String) : AuthInitResult :=
  match storedUser with
  | none =>
      { state := { currentUser := none, isAuthenticated := false,
                   isLoading := false, error := none },
        storedUser := none }
  | some s =>
      match parse s with
      | some parsedUser =>
          { state := { currentUser := some parsedUser, isAuthenticated := true,
                       isLoading := false, error := none },
            storedUser := some s }
      | none =>
          { state := { currentUser := none, isAuthenticated := false,
                       isLoading := false, error := none },
            storedUser := none }

/-- Result of `login`: the auth state, the persisted record, and whether
the error was re-thrown for the calling component. -/
structure LoginOutcome where
  state : AuthState
  storedUser : Option String
  threw : Bool
deriving Repr, DecidableEq

/-- Function `login` of `AuthProvider` (`part_006`, lines 40-58).  `serialize`
stands for `JSON.stringify`; `backend` for the `loginUser` call, whose
`Except.error` carries the thrown error's message.  On failure the
in-memory identity is cleared and the error re-thrown, but the persisted
record is not touched. -/
def login (serialize : UserResponse → String) (state : AuthState)
    (storedUser : Option String) (backend : Except String UserResponse) :
    LoginOutcome :=
  match backend with
  | Except.ok user =>
      { state := { currentUser := some user, isAuthenticated := true,
                   isLoading := false, error := none },
        storedUser := some (serialize user), threw := false }
  | Except.error e =>
      { state := { currentUser := none, isAuthenticated := false,
                   isLoading := false, error := some (jsOr e "Login failed") },
        storedUser := storedUser, threw := true }

/-- Function `logout` of `AuthProvider` (`part_006`, lines 78-84): clear the
in-memory identity and remove the persisted record unconditionally. -/
def logout (state : AuthState) (storedUser : Option String) :
    AuthState × Option String :=
  ({ currentUser := none, isAuthenticated := false,
     isLoading := state.isLoading, error := none }, none)

/-- The user record used by the auth witnesses. -/
def sampleUser : UserResponse :=
  { username := "u1", full_name := some "User One", id := "u1", role := "reader" }

/-- The unauthenticated initialization result after a discarded record. -/
def unauthenticatedInit : AuthInitResult :=
  { state := { currentUser := none, isAuthenticated := false,
               isLoading := false, error := none },
    storedUser := none }

/-- Removing the documents whose id matches `docId` shortens the list by
the number of occurrences of that id. -/
theorem length_filter_id_ne_add_countP (l : List Document) (docId : String) :
    (l.filter fun doc => doc.id ≠ docId).length
        + l.countP (fun doc => doc.id = docId) = l.length := by
  induction l with
  | nil => rfl
  | cons x xs ih =>
    by_cases h : x.id = docId
    · simp [List.filter_cons, List.countP_cons, h, ← ih]
      omega
    · simp [List.filter_cons, List.countP_cons, h, ← ih]
      omega

/-- C2 counterexample: the initial population of the store
(`use-component-props.ts`, lines 577-646) violates the count invariant:
the first database carries `documentCount = 12` with 2 documents (and the
second `28` with 2). -/
theorem initialDatabases_violate_count_invariant :
    ¬ ∀ db ∈ initialDatabases, db.documentCount = (db.documents.length : Int) := by
  decide

/-- C2 (amended): every mutation of the store keeps `documentCount` equal
to the length of `documents` for the affected database —
`updateDatabaseDocuments` and the upload merge re-establish it
unconditionally, creation starts at zero, deletion preserves it provided
the deleted id occurs exactly once in the target database, and document
rename preserves it — but the initial population does not satisfy the
invariant, so it does not hold after mutations of the shipped initial
state. -/
theorem countInvariant_mutations :
    (∀ (databases : List Database) (dbId : String)
        (updater : List Document → List Document) (today : String),
        ∀ db ∈ updateDatabaseDocuments databases dbId updater today,
          db.id = dbId → db.documentCount = (db.documents.length : Int))
    ∧ (∀ (now : Nat) (today name : String),
        (createNewDatabase now today name).documentCount
          = ((createNewDatabase now today name).documents.length : Int))
    ∧ (∀ (databases : List Database) (targetDbId : String) (newDoc : Document),
        ∀ db ∈ handleFileUploadMerge databases targetDbId newDoc,
          db.id = targetDbId → db.documentCount = (db.documents.length : Int))
    ∧ (∀ (databases : List Database) (dbId docId today : String),
        (∀ db ∈ databases, db.documentCount = (db.documents.length : Int)) →
        (∀ db ∈ databases, db.id = dbId →
            db.documents.countP (fun doc => doc.id = docId) = 1) →
        ∀ db ∈ deleteDocumentLocal databases dbId docId today,
          db.documentCount = (db.documents.length : Int))
    ∧ (∀ (databases : List Database) (dbId docId newName today : String),
        (∀ db ∈ databases, db.documentCount = (db.documents.length : Int)) →
        ∀ db ∈ renameDocument databases dbId docId newName today,
          db.documentCount = (db.documents.length : Int)) := by
  refine ⟨?_, ?_, ?_, ?_, ?_⟩
  · intro databases dbId updater today db hdb hid
    obtain ⟨a, ha, rfl⟩ := List.mem_map.mp hdb
    by_cases h : a.id = dbId
    · simp [h]
    · simp only [if_neg h] at hid ⊢
      exact absurd hid h
  · intro now today name
    rfl
  · intro databases targetDbId newDoc db hdb hid
    obtain ⟨a, ha, rfl⟩ := List.mem_map.mp hdb
    by_cases h : a.id = targetDbId
    · simp [h]
    · simp only [if_neg h] at hid ⊢
      exact absurd hid h
  · intro databases dbId docId today hinv hone db hdb
    obtain ⟨a, ha, rfl⟩ := List.mem_map.mp hdb
    by_cases h : a.id = dbId
    · have hlen := length_filter_id_ne_add_countP a.documents docId
      rw [hone a ha h] at hlen
      have hcount := hinv a ha
      simp only [if_pos h]
      rw [hcount]
      omega
    · simp only [if_neg h]
      exact hinv a ha
  · intro databases dbId docId newName today hinv db hdb
    obtain ⟨a, ha, rfl⟩ := List.mem_map.mp hdb
    by_cases h : a.id = dbId
    · simpa [h] using hinv a ha
    · simp only [if_neg h]
      exact hinv a ha

/-- Witness for `countInvariant_mutations`: the invariant after emptying
`sampleDb` through `updateDatabaseDocuments`, and after deleting its only
document through the delete flow's local update. -/
theorem countInvariant_mutations_witness :
    ((sampleDbEmptied "t").documentCount
      = ((sampleDbEmptied "t").documents.length : Int))
    ∧ ((sampleDbEmptied "2024-02-02").documentCount
      = ((sampleDbEmptied "2024-02-02").documents.length : Int)) :=
  ⟨countInvariant_mutations.1 [sampleDb] "1" (fun _ => []) "t"
      (sampleDbEmptied "t") (by decide) (by decide),
   countInvariant_mutations.2.2.2.1 [sampleDb] "1" "doc1" "2024-02-02"
      (by decide) (by decide) (sampleDbEmptied "2024-02-02") (by decide)⟩

/-- C7: uploading a file with the same display name twice into the same
collection leaves exactly one document with that name, carrying the most
recent metadata: the on-success merge (`part_004`, lines 82-93) replaces
any same-name document and otherwise appends, so after the second merge
the target collection's documents of that name are exactly the second
upload's document. -/
theorem upload_same_name_twice_unique
    (databases : List Database) (targetDbId : String) (d1 d2 : Document)
    (hname : d1.name = d2.name) :
    ∀ db2 ∈ handleFileUploadMerge (handleFileUploadMerge databases targetDbId d1)
        targetDbId d2,
      db2.id = targetDbId →
      db2.documents.filter (fun doc => doc.name = d2.name) = [d2]
      ∧ db2.documents.countP (fun doc => doc.name = d2.name) = 1 := by
  intro db2 hdb2 hid
  obtain ⟨b, hb, rfl⟩ := List.mem_map.mp hdb2
  obtain ⟨a, ha, rfl⟩ := List.mem_map.mp hb
  by_cases h : a.id = targetDbId
  · refine ⟨?_, by simp [h, hname, List.countP_filter, ← Bool.and_assoc]⟩
    simp [h]
    intro x hx h1 h2
    exact absurd h1 h2
  · simp only [if_neg h] at hid
    exact absurd hid h

/-- Witness for `upload_same_name_twice_unique`: re-uploading `a.pdf` with
fresh metadata into `sampleDb`, which already holds an `a.pdf`. -/
theorem upload_same_name_twice_unique_witness :
    sampleDbReuploaded.documents.filter
        (fun doc => doc.name = sampleDocFresh.name) = [sampleDocFresh]
    ∧ sampleDbReuploaded.documents.countP
        (fun doc => doc.name = sampleDocFresh.name) = 1 :=
  upload_same_name_twice_unique [sampleDb] "1" sampleDoc sampleDocFresh
    (by decide) sampleDbReuploaded (by decide) (by decide)

/-- C3 counterexample: a file whose declared MIME type is in the allow-list
(`application/pdf`) and whose size is exactly 50 MiB is ACCEPTED by
`validateFileType`, not rejected: the OR short-circuits on the type test. -/
theorem validateFileType_accepts_typed_oversized :
    validateFileType { name := "big.pdf", type := "application/pdf",
                       size := 50 * 1024 * 1024 } = true := by
  decide

/-- C3 (amended): for every file whose declared MIME type is in the
allow-list, `validateFileType` accepts it regardless of size; in particular
a correctly-typed oversized file is accepted, not rejected. -/
theorem validateFileType_allowed_type_accepted (file : File)
    (h : allowedTypes.contains file.type = true) :
    validateFileType file = true := by
  simp only [validateFileType, h, Bool.true_or]

/-- Witness for `validateFileType_allowed_type_accepted` at a concrete
oversized PDF. -/
theorem validateFileType_allowed_type_accepted_witness :
    allowedTypes.contains "application/pdf" = true ∧
      validateFileType { name := "big.pdf", type := "application/pdf",
                         size := 50 * 1024 * 1024 } = true :=
  ⟨by decide,
   validateFileType_allowed_type_accepted
     { name := "big.pdf", type := "application/pdf", size := 50 * 1024 * 1024 }
     (by decide)⟩

/-- C4: `validateFileType` returns `true` exactly when the declared MIME
type is in the fixed allow-list OR the size is strictly under the 50 MiB
ceiling; in particular every file strictly under the ceiling is accepted
regardless of its MIME type.  The embedding is a pure function, matching
the absence of side effects in the source. -/
theorem validateFileType_spec (file : File) :
    (validateFileType file = true ↔
      file.type ∈ allowedTypes ∨ file.size < 50 * 1024 * 1024) ∧
    (file.size < 50 * 1024 * 1024 → validateFileType file = true) := by
  constructor
  · simp [validateFileType, List.elem_iff]
  · intro h
    simp [validateFileType, h]

/-- C6: a confirmed document deletion removes the document locally
(decrementing `documentCount`, clamped at zero) exactly when the backend's
per-file status list reports the file successful; when the report is
not-successful or the request fails, the local collection state is
unchanged and the reported message is surfaced as the failure reason
through the fallback chain of the source. -/
theorem deleteDocument_reconciles
    (databases : List Database) (dbId docId docName today : String)
    (backend : Except String ApiDeleteResponseData)
    (db : Database) (hmem : db ∈ databases) (hid : db.id = dbId) :
    (∀ response, backend = Except.ok response →
      deleteReportedSuccess response = true →
      (deleteDocument databases dbId docId docName today true backend).databases
          = deleteDocumentLocal databases dbId docId today
        ∧ deleteDocumentUpdatedDb db docId today
            ∈ (deleteDocument databases dbId docId docName today true backend).databases
        ∧ ∀ doc ∈ (deleteDocumentUpdatedDb db docId today).documents, doc.id ≠ docId)
    ∧ (∀ response, backend = Except.ok response →
      deleteReportedSuccess response = false →
      (deleteDocument databases dbId docId docName today true backend).databases
          = databases
        ∧ (deleteDocument databases dbId docId docName today true backend).toasts
            = [{ title := "Error Deleting Document",
                 description := jsOr
                   (jsOr response.overall_message (deleteStatusMsg response))
                   ("Could not delete " ++ docName ++ "."),
                 destructive := true }])
    ∧ (∀ e, backend = Except.error e →
      (deleteDocument databases dbId docId docName today true backend).databases
          = databases
        ∧ (deleteDocument databases dbId docId docName today true backend).toasts
            = [{ title := "Error Deleting Document",
                 description := jsOr e ("Could not delete " ++ docName ++ "."),
                 destructive := true }]) := by
  refine ⟨?_, ?_, ?_⟩
  · intro response hb hsucc
    subst hb
    refine ⟨by simp [deleteDocument, hsucc], ?_, ?_⟩
    · have hg : deleteDocumentUpdatedDb db docId today
          ∈ deleteDocumentLocal databases dbId docId today := by
        have := List.mem_map_of_mem
          (fun d : Database =>
            if d.id = dbId then
              { d with documents := d.documents.filter (fun doc => doc.id ≠ docId),
                       documentCount := max 0 (d.documentCount - 1),
                       lastModified := today }
            else d) hmem
        simpa [deleteDocumentLocal, deleteDocumentUpdatedDb, hid] using this
      simpa [deleteDocument, hsucc] using hg
    · intro doc hdoc
      have := List.of_mem_filter hdoc
      simpa using this
  · intro response hb hfail
    subst hb
    constructor <;> simp [deleteDocument, hfail]
  · intro e hb
    subst hb
    constructor <;> simp [deleteDocument]

/-- Witness for `deleteDocument_reconciles`: deleting `a.pdf` from
`sampleDb` with a successful report removes it locally; with a failure
report the state is unchanged and the reported message is surfaced. -/
theorem deleteDocument_reconciles_witness :
    ((deleteDocument [sampleDb] "1" "doc1" "a.pdf" "t" true
        (Except.ok sampleDeleteResponseOk)).databases
      = deleteDocumentLocal [sampleDb] "1" "doc1" "t")
    ∧ deleteDocumentUpdatedDb sampleDb "doc1" "t"
        ∈ (deleteDocument [sampleDb] "1" "doc1" "a.pdf" "t" true
            (Except.ok sampleDeleteResponseOk)).databases
    ∧ ((deleteDocument [sampleDb] "1" "doc1" "a.pdf" "t" true
          (Except.ok sampleDeleteResponseFail)).databases = [sampleDb]) :=
  ⟨((deleteDocument_reconciles [sampleDb] "1" "doc1" "a.pdf" "t"
      (Except.ok sampleDeleteResponseOk) sampleDb (by decide) (by decide)).1
      sampleDeleteResponseOk rfl (by decide)).1,
   ((deleteDocument_reconciles [sampleDb] "1" "doc1" "a.pdf" "t"
      (Except.ok sampleDeleteResponseOk) sampleDb (by decide) (by decide)).1
      sampleDeleteResponseOk rfl (by decide)).2.1,
   ((deleteDocument_reconciles [sampleDb] "1" "doc1" "a.pdf" "t"
      (Except.ok sampleDeleteResponseFail) sampleDb (by decide) (by decide)).2.1
      sampleDeleteResponseFail rfl (by decide)).1⟩

/-- C1 (intent of the success branch): on a successful backend query,
exactly one assistant message is appended to the log after the optimistic
user message, its content is the backend's answer and its
`documentReferences` are exactly the backend's sources, and the same
assistant message is appended to the currently active saved chat. -/
theorem handleSendMessage_success_appends_bot
    (now : Nat) (timestamp : String) (chatState : ChatState)
    (savedChats : List SavedChat) (uid : String)
    (backendResponse : ApiQueryResponseData)
    (h : ¬ jsTrim chatState.currentMessage = "") :
    (handleSendMessage now timestamp chatState savedChats (some uid)
        (Except.ok backendResponse)).chat.messages
      = chatState.messages
          ++ [mkUserMessage now timestamp (jsTrim chatState.currentMessage),
              mkBotResponseMessage now timestamp backendResponse]
    ∧ (handleSendMessage now timestamp chatState savedChats (some uid)
        (Except.ok backendResponse)).savedChats
      = appendToCurrentChat chatState.currentChatId
          (mkBotResponseMessage now timestamp backendResponse)
          (appendToCurrentChat chatState.currentChatId
            (mkUserMessage now timestamp (jsTrim chatState.currentMessage))
            savedChats)
    ∧ (∀ chat ∈ savedChats, chat.id = chatState.currentChatId →
        { chat with messages := chat.messages
            ++ [mkUserMessage now timestamp (jsTrim chatState.currentMessage),
                mkBotResponseMessage now timestamp backendResponse] }
          ∈ (handleSendMessage now timestamp chatState savedChats (some uid)
              (Except.ok backendResponse)).savedChats)
    ∧ (mkBotResponseMessage now timestamp backendResponse).content
        = backendResponse.answer
    ∧ (mkBotResponseMessage now timestamp backendResponse).documentReferences
        = some backendResponse.sources := by
  have hsv : (handleSendMessage now timestamp chatState savedChats (some uid)
      (Except.ok backendResponse)).savedChats
    = appendToCurrentChat chatState.currentChatId
        (mkBotResponseMessage now timestamp backendResponse)
        (appendToCurrentChat chatState.currentChatId
          (mkUserMessage now timestamp (jsTrim chatState.currentMessage))
          savedChats) := by
    simp only [handleSendMessage, if_neg h]
    rfl
  refine ⟨?_, hsv, ?_, rfl, rfl⟩
  · simp only [handleSendMessage, if_neg h]
    simp [mkUserMessage, mkBotResponseMessage]
  · intro chat hc hcid
    rw [hsv]
    unfold appendToCurrentChat
    have h1 := List.mem_map_of_mem
      (fun c : SavedChat =>
        if c.id = chatState.currentChatId then
          { c with messages := c.messages
              ++ [mkUserMessage now timestamp (jsTrim chatState.currentMessage)] }
        else c) hc
    have h2 := List.mem_map_of_mem
      (fun c : SavedChat =>
        if c.id = chatState.currentChatId then
          { c with messages := c.messages
              ++ [mkBotResponseMessage now timestamp backendResponse] }
        else c) h1
    simpa [hcid] using h2

/-- Witness for `handleSendMessage_success_appends_bot`: submitting
`hello` with identity `u` and answer `42` citing `a.pdf`. -/
theorem handleSendMessage_success_appends_bot_witness :
    (handleSendMessage 0 "ts" sampleChatState [sampleSavedChat] (some "u")
        (Except.ok sampleQueryResponse)).chat.messages
      = sampleChatState.messages
          ++ [mkUserMessage 0 "ts" (jsTrim sampleChatState.currentMessage),
              mkBotResponseMessage 0 "ts" sampleQueryResponse]
    ∧ { sampleSavedChat with messages := sampleSavedChat.messages
          ++ [mkUserMessage 0 "ts" (jsTrim sampleChatState.currentMessage),
              mkBotResponseMessage 0 "ts" sampleQueryResponse] }
        ∈ (handleSendMessage 0 "ts" sampleChatState [sampleSavedChat] (some "u")
            (Except.ok sampleQueryResponse)).savedChats :=
  ⟨(handleSendMessage_success_appends_bot 0 "ts" sampleChatState
      [sampleSavedChat] "u" sampleQueryResponse (by decide)).1,
   (handleSendMessage_success_appends_bot 0 "ts" sampleChatState
      [sampleSavedChat] "u" sampleQueryResponse (by decide)).2.2.1
      sampleSavedChat (by decide) (by decide)⟩

/-- C5 counterexample: a submission with a nonempty question and no user
identity issues no query and raises the authentication toast, yet the
message log and the active saved chat have already gained the optimistic
user message — the rejection does NOT precede the optimistic append, so
the log is not left unchanged. -/
theorem handleSendMessage_no_identity_mutates_log :
    (handleSendMessage 0 "ts" sampleChatState [sampleSavedChat] none
        (Except.error "")).queried = false
    ∧ (handleSendMessage 0 "ts" sampleChatState [sampleSavedChat] none
        (Except.error "")).toasts
      = [{ title := "Authentication Error",
           description := "User ID is not available. Cannot send message.",
           destructive := true }]
    ∧ ¬ (handleSendMessage 0 "ts" sampleChatState [sampleSavedChat] none
        (Except.error "")).chat.messages = sampleChatState.messages
    ∧ ¬ (handleSendMessage 0 "ts" sampleChatState [sampleSavedChat] none
        (Except.error "")).savedChats = [sampleSavedChat] := by
  decide

/-- C5 (amended): a submission with no available user identity is rejected
before any network call — no query is issued and an authentication error
toast is surfaced — but because the identity check runs after the
optimistic append, the log and the active saved chat have already gained
the user message and the input buffer is cleared. -/
theorem handleSendMessage_no_identity
    (now : Nat) (timestamp : String) (chatState : ChatState)
    (savedChats : List SavedChat) (backend : Except String ApiQueryResponseData)
    (h : ¬ jsTrim chatState.currentMessage = "") :
    (handleSendMessage now timestamp chatState savedChats none backend).queried
        = false
    ∧ (handleSendMessage now timestamp chatState savedChats none backend).toasts
      = [{ title := "Authentication Error",
           description := "User ID is not available. Cannot send message.",
           destructive := true }]
    ∧ (handleSendMessage now timestamp chatState savedChats none backend).chat.messages
      = chatState.messages
          ++ [mkUserMessage now timestamp (jsTrim chatState.currentMessage)]
    ∧ (handleSendMessage now timestamp chatState savedChats none backend).chat.currentMessage
        = ""
    ∧ (handleSendMessage now timestamp chatState savedChats none backend).savedChats
      = appendToCurrentChat chatState.currentChatId
          (mkUserMessage now timestamp (jsTrim chatState.currentMessage))
          savedChats := by
  simp [handleSendMessage, if_neg h, mkUserMessage]

/-- Witness for `handleSendMessage_no_identity` at the concrete submission
of `hello` without identity. -/
theorem handleSendMessage_no_identity_witness :
    (handleSendMessage 1 "ts" sampleChatState [sampleSavedChat] none
        (Except.error "boom")).queried = false
    ∧ (handleSendMessage 1 "ts" sampleChatState [sampleSavedChat] none
        (Except.error "boom")).chat.messages
      = sampleChatState.messages
          ++ [mkUserMessage 1 "ts" (jsTrim sampleChatState.currentMessage)] :=
  ⟨(handleSendMessage_no_identity 1 "ts" sampleChatState [sampleSavedChat]
      (Except.error "boom") (by decide)).1,
   (handleSendMessage_no_identity 1 "ts" sampleChatState [sampleSavedChat]
      (Except.error "boom") (by decide)).2.2.1⟩

/-- C8: on a failed backend query the resulting log is exactly the prior
log plus the optimistic user message plus one fixed-text assistant error
message — prior messages are untouched — and a destructive error toast is
surfaced; the active saved chat keeps the user message. -/
theorem handleSendMessage_failure_append_only
    (now : Nat) (timestamp : String) (chatState : ChatState)
    (savedChats : List SavedChat) (uid e : String)
    (h : ¬ jsTrim chatState.currentMessage = "") :
    (handleSendMessage now timestamp chatState savedChats (some uid)
        (Except.error e)).chat.messages
      = chatState.messages
          ++ [mkUserMessage now timestamp (jsTrim chatState.currentMessage),
              mkChatErrorMessage now timestamp]
    ∧ (handleSendMessage now timestamp chatState savedChats (some uid)
        (Except.error e)).toasts
      = [{ title := "Error",
           description := jsOr e "Failed to get response from bot.",
           destructive := true }]
    ∧ (handleSendMessage now timestamp chatState savedChats (some uid)
        (Except.error e)).queried = true
    ∧ (handleSendMessage now timestamp chatState savedChats (some uid)
        (Except.error e)).savedChats
      = appendToCurrentChat chatState.currentChatId
          (mkUserMessage now timestamp (jsTrim chatState.currentMessage))
          savedChats := by
  refine ⟨?_, ?_, ?_, ?_⟩ <;> simp only [handleSendMessage, if_neg h] <;>
    simp [mkUserMessage, mkChatErrorMessage]

/-- Witness for `handleSendMessage_failure_append_only`: the question
`hello` with identity `u` and a failing backend. -/
theorem handleSendMessage_failure_append_only_witness :
    (handleSendMessage 2 "ts" sampleChatState [sampleSavedChat] (some "u")
        (Except.error "boom")).chat.messages
      = sampleChatState.messages
          ++ [mkUserMessage 2 "ts" (jsTrim sampleChatState.currentMessage),
              mkChatErrorMessage 2 "ts"]
    ∧ (handleSendMessage 2 "ts" sampleChatState [sampleSavedChat] (some "u")
        (Except.error "boom")).toasts
      = [{ title := "Error", description := jsOr "boom" "Failed to get response from bot.",
           destructive := true }] :=
  ⟨(handleSendMessage_failure_append_only 2 "ts" sampleChatState
      [sampleSavedChat] "u" "boom" (by decide)).1,
   (handleSendMessage_failure_append_only 2 "ts" sampleChatState
      [sampleSavedChat] "u" "boom" (by decide)).2.1⟩

/-- C9: if the persisted identity record is present but unparseable,
initialization discards it and yields an unauthenticated state
(`currentUser` none, `isAuthenticated` false) — `rehydrateSession` is a
total function, so no exception propagates — and if the record parses,
the user is authenticated and the record kept. -/
theorem rehydrateSession_spec (parse : String → Option UserResponse)
    (s : String) :
    (parse s = none → rehydrateSession parse (some s) = unauthenticatedInit)
    ∧ (∀ u, parse s = some u →
        rehydrateSession parse (some s)
          = { state := { currentUser := some u, isAuthenticated := true,
                         isLoading := false, error := none },
              storedUser := some s }) := by
  constructor
  · intro hp
    simp [rehydrateSession, hp, unauthenticatedInit]
  · intro u hp
    simp [rehydrateSession, hp]

/-- Witness for `rehydrateSession_spec`: a parser that rejects the stored
string yields the unauthenticated result; one that accepts yields the
authenticated result. -/
theorem rehydrateSession_spec_witness :
    rehydrateSession (fun _ => none) (some "corrupted") = unauthenticatedInit
    ∧ rehydrateSession (fun _ => some sampleUser) (some "record")
      = { state := { currentUser := some sampleUser, isAuthenticated := true,
                     isLoading := false, error := none },
          storedUser := some "record" } :=
  ⟨(rehydrateSession_spec (fun _ => none) "corrupted").1 rfl,
   (rehydrateSession_spec (fun _ => some sampleUser) "record").2 sampleUser rfl⟩

/-- C10: a failed login clears the in-memory identity (`currentUser` none,
`isAuthenticated` false) whatever was authenticated before, re-throws, and
leaves the persisted record untouched; a successful login overwrites the
record, and only `logout` removes it. -/
theorem login_failure_keeps_persisted_identity
    (serialize : UserResponse → String) (state : AuthState)
    (storedUser : Option String) (e : String) :
    (login serialize state storedUser (Except.error e)).state.currentUser = none
    ∧ (login serialize state storedUser (Except.error e)).state.isAuthenticated
        = false
    ∧ (login serialize state storedUser (Except.error e)).storedUser = storedUser
    ∧ (login serialize state storedUser (Except.error e)).threw = true
    ∧ (∀ user, (login serialize state storedUser (Except.ok user)).storedUser
        = some (serialize user))
    ∧ (logout state storedUser).2 = none :=
  ⟨rfl, rfl, rfl, rfl, fun _ => rfl, rfl⟩

/-- Witness for `validateFileType_spec`: a 10-byte file of unknown MIME
type is under the ceiling and accepted. -/
theorem validateFileType_spec_witness :
    (validateFileType { name := "a.exe", type := "application/octet-stream",
                        size := 10 } = true ↔
      "application/octet-stream" ∈ allowedTypes ∨ 10 < 50 * 1024 * 1024) ∧
    validateFileType { name := "a.exe", type := "application/octet-stream",
                       size := 10 } = true :=
  ⟨(validateFileType_spec
      { name := "a.exe", type := "application/octet-stream", size := 10 }).1,
   (validateFileType_spec
      { name := "a.exe", type := "application/octet-stream", size := 10 }).2
     (by decide)⟩

end Tia
